import Mathlib

/-!
Shallow embedding of `src/training_pipeline/pipeline/pipeline.py` from the
repository `osanseviero/semantic-segmentation-ml-pipeline`.

The file under analysis is a single factory function `create_pipeline` that
wires framework-provided TFX components into a pipeline graph.  We embed the
observable structure that function builds: each component constructor call
becomes a `Comp` value recording exactly the arguments the Python passes,
channels (`component.outputs["key"]` handles and fresh `Channel(type=T)`
objects) become a small inductive type, Python dictionaries become
association lists, and the two statements that can raise before the
`Pipeline` object is returned (`modules[...]` lookups raising `KeyError`,
and item assignment on a `None`-valued `hf_pusher_args` raising `TypeError`)
make the embedding return `Except PyError _`.  The in-place mutation of the
caller-supplied `hf_pusher_args` dictionary is modelled by explicit state
passing: the result records the final contents of every argument dictionary.
-/

namespace SemSegPipeline

/-- Artifact types from `tfx.types.standard_artifacts` that the wiring code
names explicitly (`Channel(type=Model)`, `Channel(type=ModelBlessing)`). -/
inductive ArtifactType
  | Model
  | ModelBlessing
deriving DecidableEq, Repr

/-- Identifiers for the nine component instances constructed by
`create_pipeline`, named after the Python local variables. -/
inductive CompId
  | example_gen
  | statistics_gen
  | schema_gen
  | transform
  | trainer
  | model_resolver
  | evaluator
  | pusher
  | hf_pusher
deriving DecidableEq, Repr

/-- A typed data handle.  `output c k` is the channel `c.outputs[k]` of a
component instance; `ofType t` is a freshly constructed `Channel(type=t)`
as in the resolver's arguments. -/
inductive Chan
  | output (producer : CompId) (key : String)
  | ofType (ty : ArtifactType)
deriving DecidableEq, Repr

/-- Is this channel an output channel of component `p`? -/
def Chan.producedBy : Chan → CompId → Bool
  | .output p _, q => p = q
  | .ofType _, _ => false

/-- Python values stored in the `Dict[Text, Any]` argument dictionaries:
strings supplied by the caller and channels written by `create_pipeline`. -/
inductive PyVal
  | str (s : String)
  | chan (c : Chan)
deriving DecidableEq, Repr

/-- A Python `Dict[Text, Any]` as an ordered association list with the
first binding of a key authoritative. -/
abbrev Dict := List (String × PyVal)

/-- A Python `Dict[Text, Text]` (the `modules` mapping). -/
abbrev StrDict := List (String × String)

/-- `d[k]` as an `Option`: `none` models a `KeyError`. -/
def dictGet (d : Dict) (k : String) : Option PyVal :=
  match d with
  | [] => none
  | (k', v) :: rest => if k' = k then some v else dictGet rest k

/-- `d[k] = v` with Python dict semantics: an existing key keeps its
position and gets the new value, a new key is appended at the end. -/
def dictSet (d : Dict) (k : String) (v : PyVal) : Dict :=
  match d with
  | [] => [(k, v)]
  | (k', v') :: rest => if k' = k then (k, v) :: rest else (k', v') :: dictSet rest k v

/-- `d[k]` for the string-valued `modules` mapping. -/
def strGet (d : StrDict) (k : String) : Option String :=
  match d with
  | [] => none
  | (k', v) :: rest => if k' = k then some v else strGet rest k

/-- Opaque `trainer_pb2.TrainArgs` proto, passed through unchanged. -/
structure TrainArgs where
  num_steps : Nat
deriving DecidableEq, Repr

/-- Opaque `trainer_pb2.EvalArgs` proto, passed through unchanged. -/
structure EvalArgs where
  num_steps : Nat
deriving DecidableEq, Repr

/-- Opaque `tfma.EvalConfig` value, passed through unchanged. -/
structure EvalConfig where
  tag : Nat
deriving DecidableEq, Repr

/-- Opaque `metadata_store_pb2.ConnectionConfig` value, passed through
unchanged. -/
structure ConnectionConfig where
  tag : Nat
deriving DecidableEq, Repr

/-- One split declaration `example_gen_pb2.Input.Split(name=..., pattern=...)`. -/
structure Split where
  name : String
  pattern : String
deriving DecidableEq, Repr

/-- `example_gen_pb2.Input(splits=[...])`. -/
structure InputConfig where
  splits : List Split
deriving DecidableEq, Repr

/-- One TFX component constructor call, recording exactly the arguments the
Python source passes to it. -/
inductive Comp
  | importExampleGen (input_base : String) (input_config : InputConfig)
  | statisticsGen (examples : Chan)
  | schemaGen (statistics : Chan)
  | transform (examples : Chan) (schema : Chan) (preprocessing_fn : String)
  | vertexTrainer (run_fn : String) (transformed_examples : Chan)
      (transform_graph : Chan) (schema : Chan) (train_args : TrainArgs)
      (eval_args : EvalArgs) (custom_config : Option Dict)
  | resolver (strategy_class : String) (model : Chan) (model_blessing : Chan)
  | evaluator (examples : Chan) (model : Chan) (baseline_model : Chan)
      (eval_config : EvalConfig)
  | vertexPusher (model : Chan) (model_blessing : Chan) (custom_config : Option Dict)
  | hfPusher (args : Dict)
deriving DecidableEq, Repr

/-- A component instance together with the state set by the fluent calls
the source makes on it: `with_beam_pipeline_args` and `with_id`. -/
structure Node where
  comp : Comp
  beam_args : Option (List String)
  id : Option String
deriving DecidableEq, Repr

/-- A freshly constructed component: no beam args, no explicit id. -/
def mkNode (c : Comp) : Node :=
  { comp := c, beam_args := none, id := none }

/-- `component.with_beam_pipeline_args(args)`. -/
def with_beam_pipeline_args (n : Node) (args : List String) : Node :=
  { n with beam_args := some args }

/-- `component.with_id(s)`. -/
def with_id (n : Node) (s : String) : Node :=
  { n with id := some s }

/-- The `tfx.orchestration.pipeline.Pipeline(...)` object returned by
`create_pipeline`. -/
structure Pipeline where
  pipeline_name : String
  pipeline_root : String
  components : List Node
  enable_cache : Bool
  metadata_connection_config : Option ConnectionConfig
deriving DecidableEq, Repr

/-- The exceptions the statements of `create_pipeline` itself can raise:
`KeyError` from a `modules[...]` lookup and `TypeError` from item
assignment on `None`. -/
inductive PyError
  | keyError (key : String)
  | typeError (msg : String)
deriving DecidableEq, Repr

/-- The `TypeError` message for `None[...] = ...`. -/
def hfNoneMsg : String := "NoneType object does not support item assignment"

/-- The result of a successful call: the returned pipeline together with
the final state of every caller-supplied dictionary (only `hf_pusher_args`
is ever mutated by the source). -/
structure CreateResult where
  pipeline : Pipeline
  modules_after : StrDict
  ai_platform_training_args_after : Option Dict
  ai_platform_serving_args_after : Option Dict
  hf_pusher_args_after : Option Dict
deriving DecidableEq, Repr

/-- The straight-line component assembly of `create_pipeline`, given the
values of the three lookups that can raise (`modules["preprocessing_fn"]`,
`modules["training_fn"]`, and the non-`None` `hf_pusher_args` dictionary).
Every line mirrors one constructor call or statement of the Python source,
in source order. -/
def assembleOk (pipeline_name pipeline_root data_path : String)
    (preprocessing_fn training_fn : String)
    (train_args : TrainArgs) (eval_args : EvalArgs) (eval_configs : EvalConfig)
    (metadata_connection_config : Option ConnectionConfig)
    (ai_platform_training_args ai_platform_serving_args : Option Dict)
    (example_gen_beam_args transform_beam_args : Option (List String))
    (hf_pusher_args : Dict) (modules : StrDict) : CreateResult :=
  -- Data splitting config.
  let input_config : InputConfig :=
    { splits := [ { name := "train", pattern := "train-*.tfrec" },
                  { name := "eval", pattern := "val-*.tfrec" } ] }
  -- example_gen = ImportExampleGen(input_base=data_path, input_config=input_config)
  let example_gen := mkNode (.importExampleGen data_path input_config)
  -- if example_gen_beam_args is not None: example_gen.with_beam_pipeline_args(...)
  let example_gen :=
    match example_gen_beam_args with
    | some bargs => with_beam_pipeline_args example_gen bargs
    | none => example_gen
  -- statistics_gen = StatisticsGen(examples=example_gen.outputs["examples"])
  let statistics_gen := mkNode (.statisticsGen (.output .example_gen "examples"))
  -- schema_gen = SchemaGen(statistics=statistics_gen.outputs["statistics"])
  let schema_gen := mkNode (.schemaGen (.output .statistics_gen "statistics"))
  -- transform = Transform(examples=..., schema=..., preprocessing_fn=modules["preprocessing_fn"])
  let transform := mkNode (.transform (.output .example_gen "examples")
    (.output .schema_gen "schema") preprocessing_fn)
  -- if transform_beam_args is not None: transform.with_beam_pipeline_args(...)
  let transform :=
    match transform_beam_args with
    | some bargs => with_beam_pipeline_args transform bargs
    | none => transform
  -- trainer = VertexTrainer(**trainer_args) with run_fn = modules["training_fn"]
  let trainer := mkNode (.vertexTrainer training_fn
    (.output .transform "transformed_examples")
    (.output .transform "transform_graph")
    (.output .schema_gen "schema")
    train_args eval_args ai_platform_training_args)
  -- model_resolver = resolver.Resolver(strategy_class=LatestBlessedModelResolver,
  --   model=Channel(type=Model), model_blessing=Channel(type=ModelBlessing))
  --   .with_id("latest_blessed_model_resolver")
  let model_resolver := with_id (mkNode (.resolver "LatestBlessedModelResolver"
    (.ofType .Model) (.ofType .ModelBlessing))) "latest_blessed_model_resolver"
  -- evaluator = Evaluator(examples=example_gen.outputs["examples"],
  --   model=trainer.outputs["model"], baseline_model=model_resolver.outputs["model"],
  --   eval_config=eval_configs)
  let evaluator := mkNode (.evaluator (.output .example_gen "examples")
    (.output .trainer "model") (.output .model_resolver "model") eval_configs)
  -- pusher = VertexPusher(**pusher_args)
  let pusher := mkNode (.vertexPusher (.output .trainer "model")
    (.output .evaluator "blessing") ai_platform_serving_args)
  -- hf_pusher_args["model"] = trainer.outputs["model"]
  let hfArgs := dictSet hf_pusher_args "model" (.chan (.output .trainer "model"))
  -- hf_pusher_args["model_blessing"] = evaluator.outputs["blessing"]
  let hfArgs := dictSet hfArgs "model_blessing" (.chan (.output .evaluator "blessing"))
  -- hf_pusher = HFPusher(**hf_pusher_args)
  let hf_pusher := mkNode (.hfPusher hfArgs)
  -- return pipeline.Pipeline(...)
  { pipeline :=
      { pipeline_name := pipeline_name
        pipeline_root := pipeline_root
        components := [example_gen, statistics_gen, schema_gen, transform,
          trainer, model_resolver, evaluator, pusher, hf_pusher]
        enable_cache := true
        metadata_connection_config := metadata_connection_config }
    modules_after := modules
    ai_platform_training_args_after := ai_platform_training_args
    ai_platform_serving_args_after := ai_platform_serving_args
    hf_pusher_args_after := some hfArgs }

/-- `create_pipeline` from `pipeline.py`.  The three operations that can
raise are sequenced first, in the order the Python executes them
(`modules["preprocessing_fn"]` at the `Transform` call, then
`modules["training_fn"]` at the `VertexTrainer` call, then the item
assignment on `hf_pusher_args`); everything else is the pure construction
in `assembleOk`.  The function contains no handler: each failure is
returned unchanged. -/
def create_pipeline (pipeline_name pipeline_root data_path : String)
    (modules : StrDict)
    (train_args : TrainArgs) (eval_args : EvalArgs) (eval_configs : EvalConfig)
    (metadata_connection_config : Option ConnectionConfig)
    (ai_platform_training_args ai_platform_serving_args : Option Dict)
    (example_gen_beam_args transform_beam_args : Option (List String))
    (hf_pusher_args : Option Dict) : Except PyError CreateResult :=
  match strGet modules "preprocessing_fn" with
  | none => .error (.keyError "preprocessing_fn")
  | some preprocessing_fn =>
    match strGet modules "training_fn" with
    | none => .error (.keyError "training_fn")
    | some training_fn =>
      match hf_pusher_args with
      | none => .error (.typeError hfNoneMsg)
      | some hfArgs =>
        .ok (assembleOk pipeline_name pipeline_root data_path
          preprocessing_fn training_fn train_args eval_args eval_configs
          metadata_connection_config ai_platform_training_args
          ai_platform_serving_args example_gen_beam_args transform_beam_args
          hfArgs modules)

/-! ### Selectors on the assembled graph -/

/-- The component constructor call at position `i` of the pipeline's
components list. -/
def componentAt (p : Pipeline) (i : Nat) : Option Comp :=
  (p.components[i]?).map Node.comp

/-- The human-readable constructor name of a component, for stating the
ordered component list. -/
def Comp.kindName : Comp → String
  | .importExampleGen .. => "ImportExampleGen"
  | .statisticsGen .. => "StatisticsGen"
  | .schemaGen .. => "SchemaGen"
  | .transform .. => "Transform"
  | .vertexTrainer .. => "VertexTrainer"
  | .resolver .. => "Resolver"
  | .evaluator .. => "Evaluator"
  | .vertexPusher .. => "VertexPusher"
  | .hfPusher .. => "HFPusher"

/-- The `input_config` argument of an `ImportExampleGen` call. -/
def Comp.egInputConfig : Comp → Option InputConfig
  | .importExampleGen _ ic => some ic
  | _ => none

/-- The `examples` argument of a `StatisticsGen` call. -/
def Comp.statsExamples : Comp → Option Chan
  | .statisticsGen e => some e
  | _ => none

/-- The `statistics` argument of a `SchemaGen` call. -/
def Comp.schemaStatistics : Comp → Option Chan
  | .schemaGen s => some s
  | _ => none

/-- The `examples` argument of a `Transform` call. -/
def Comp.transformExamples : Comp → Option Chan
  | .transform e _ _ => some e
  | _ => none

/-- The `schema` argument of a `Transform` call. -/
def Comp.transformSchema : Comp → Option Chan
  | .transform _ s _ => some s
  | _ => none

/-- The `transformed_examples` argument of a `VertexTrainer` call. -/
def Comp.trainerTransformedExamples : Comp → Option Chan
  | .vertexTrainer _ te _ _ _ _ _ => some te
  | _ => none

/-- The `transform_graph` argument of a `VertexTrainer` call. -/
def Comp.trainerTransformGraph : Comp → Option Chan
  | .vertexTrainer _ _ tg _ _ _ _ => some tg
  | _ => none

/-- The `schema` argument of a `VertexTrainer` call. -/
def Comp.trainerSchema : Comp → Option Chan
  | .vertexTrainer _ _ _ s _ _ _ => some s
  | _ => none

/-- The `custom_config` argument of a `VertexTrainer` call. -/
def Comp.trainerCustomConfig : Comp → Option (Option Dict)
  | .vertexTrainer _ _ _ _ _ _ cc => some cc
  | _ => none

/-- The `model` argument of a `Resolver` call. -/
def Comp.resolverModel : Comp → Option Chan
  | .resolver _ m _ => some m
  | _ => none

/-- The `model_blessing` argument of a `Resolver` call. -/
def Comp.resolverModelBlessing : Comp → Option Chan
  | .resolver _ _ mb => some mb
  | _ => none

/-- The `examples` argument of an `Evaluator` call. -/
def Comp.evaluatorExamples : Comp → Option Chan
  | .evaluator e _ _ _ => some e
  | _ => none

/-- The `model` argument of an `Evaluator` call. -/
def Comp.evaluatorModel : Comp → Option Chan
  | .evaluator _ m _ _ => some m
  | _ => none

/-- The `baseline_model` argument of an `Evaluator` call. -/
def Comp.evaluatorBaselineModel : Comp → Option Chan
  | .evaluator _ _ bm _ => some bm
  | _ => none

/-- The `eval_config` argument of an `Evaluator` call. -/
def Comp.evaluatorEvalConfig : Comp → Option EvalConfig
  | .evaluator _ _ _ ec => some ec
  | _ => none

/-- The `model` argument of a `VertexPusher` call. -/
def Comp.pusherModel : Comp → Option Chan
  | .vertexPusher m _ _ => some m
  | _ => none

/-- The `model_blessing` argument of a `VertexPusher` call. -/
def Comp.pusherModelBlessing : Comp → Option Chan
  | .vertexPusher _ mb _ => some mb
  | _ => none

/-- The `custom_config` argument of a `VertexPusher` call. -/
def Comp.pusherCustomConfig : Comp → Option (Option Dict)
  | .vertexPusher _ _ cc => some cc
  | _ => none

/-- The keyword-argument dictionary of an `HFPusher(**hf_pusher_args)` call. -/
def Comp.hfArgs : Comp → Option Dict
  | .hfPusher a => some a
  | _ => none

/-! ### Dictionary lemmas -/

/-- After `d[k] = v`, looking up `k` yields `v`. -/
theorem dictGet_dictSet_self (d : Dict) (k : String) (v : PyVal) :
    dictGet (dictSet d k v) k = some v := by
  induction d with
  | nil => simp [dictSet, dictGet]
  | cons p rest ih =>
    obtain ⟨k', v'⟩ := p
    by_cases hk : k' = k
    · simp [dictSet, dictGet, hk]
    · simp [dictSet, dictGet, hk, ih]

/-- After `d[k] = v`, looking up any other key is unchanged. -/
theorem dictGet_dictSet_other (d : Dict) (k k' : String) (v : PyVal)
    (h : k' ≠ k) : dictGet (dictSet d k v) k' = dictGet d k' := by
  have hne : ¬k = k' := fun hh => h hh.symm
  induction d with
  | nil => simp [dictSet, dictGet, hne]
  | cons p rest ih =>
    obtain ⟨k0, v0⟩ := p
    by_cases hk : k0 = k
    · subst hk
      simp [dictSet, dictGet, hne]
    · simp [dictSet, dictGet, hk, ih]

/-! ### Inversion of `create_pipeline` -/

/-- A call to `create_pipeline` returns successfully exactly when both
module lookups succeed and `hf_pusher_args` is not `None`, and the result
is then the straight-line assembly `assembleOk`. -/
theorem create_pipeline_ok_elim (pn pr dp : String) (modules : StrDict)
    (ta : TrainArgs) (ea : EvalArgs) (ec : EvalConfig)
    (mcc : Option ConnectionConfig) (atr asv : Option Dict)
    (egba tba : Option (List String)) (hfa : Option Dict) (r : CreateResult)
    (h : create_pipeline pn pr dp modules ta ea ec mcc atr asv egba tba hfa = .ok r) :
    ∃ pf tf hfd,
      strGet modules "preprocessing_fn" = some pf ∧
      strGet modules "training_fn" = some tf ∧
      hfa = some hfd ∧
      r = assembleOk pn pr dp pf tf ta ea ec mcc atr asv egba tba hfd modules := by
  unfold create_pipeline at h
  cases hpf : strGet modules "preprocessing_fn" with
  | none => rw [hpf] at h; exact absurd h (by simp)
  | some pf =>
    rw [hpf] at h
    cases htf : strGet modules "training_fn" with
    | none => rw [htf] at h; exact absurd h (by simp)
    | some tf =>
      rw [htf] at h
      cases hhf : hfa with
      | none => rw [hhf] at h; exact absurd h (by simp)
      | some hfd =>
        rw [hhf] at h
        simp only [Except.ok.injEq] at h
        exact ⟨pf, tf, hfd, rfl, rfl, rfl, h.symm⟩

/-! ### Concrete sample inputs, used by the witness theorems -/

/-- A modules mapping holding both required entry points. -/
def sampleModules : StrDict :=
  [("preprocessing_fn", "models.preprocessing.run_fn"),
   ("training_fn", "models.train.run_fn")]

/-- A caller-supplied `hf_pusher_args` dictionary; it already holds a stale
value under the key "model" to exercise overwriting. -/
def sampleHf : Dict :=
  [("username", .str "chansung"), ("model", .str "stale-value")]

/-- A successful call with every optional argument absent except
`hf_pusher_args`. -/
def sampleRun : Except PyError CreateResult :=
  create_pipeline "segmentation-pipeline" "gs://bucket/root" "gs://bucket/data"
    sampleModules ⟨160⟩ ⟨4⟩ ⟨7⟩ none none none none none (some sampleHf)

/-- A placeholder result, only used as the default of `Option.getD`. -/
def emptyResult : CreateResult :=
  { pipeline :=
      { pipeline_name := ""
        pipeline_root := ""
        components := []
        enable_cache := true
        metadata_connection_config := none }
    modules_after := []
    ai_platform_training_args_after := none
    ai_platform_serving_args_after := none
    hf_pusher_args_after := none }

/-- The result of `sampleRun` (the run succeeds, so `getD` never falls
back to the placeholder). -/
def sampleResult : CreateResult := sampleRun.toOption.getD emptyResult

/-- A successful call with every optional argument supplied. -/
def sampleRun2 : Except PyError CreateResult :=
  create_pipeline "segmentation-pipeline" "gs://bucket/root" "gs://bucket/data"
    sampleModules ⟨160⟩ ⟨4⟩ ⟨7⟩ (some ⟨1⟩)
    (some [("project", .str "gcp-project")])
    (some [("machine_type", .str "n1-standard-4")])
    (some ["--runner=DataflowRunner"]) (some ["--direct_num_workers=4"])
    (some sampleHf)

/-- The result of `sampleRun2`. -/
def sampleResult2 : CreateResult := sampleRun2.toOption.getD emptyResult

/-! ### Claim theorems -/

/-- C1: For every input on which `create_pipeline` returns, the components
list of the returned Pipeline contains exactly nine components in this
order: ImportExampleGen, StatisticsGen, SchemaGen, Transform, VertexTrainer,
the latest-blessed-model Resolver, Evaluator, VertexPusher, HFPusher. -/
theorem components_are_nine_in_order (pn pr dp : String) (modules : StrDict)
    (ta : TrainArgs) (ea : EvalArgs) (ec : EvalConfig)
    (mcc : Option ConnectionConfig) (atr asv : Option Dict)
    (egba tba : Option (List String)) (hfa : Option Dict) (r : CreateResult)
    (h : create_pipeline pn pr dp modules ta ea ec mcc atr asv egba tba hfa = .ok r) :
    r.pipeline.components.map (fun n => Comp.kindName n.comp) =
      ["ImportExampleGen", "StatisticsGen", "SchemaGen", "Transform",
       "VertexTrainer", "Resolver", "Evaluator", "VertexPusher", "HFPusher"] ∧
    (r.pipeline.components[5]?).map Node.id =
      some (some "latest_blessed_model_resolver") := by
  obtain ⟨pf, tf, hfd, _, _, _, hr⟩ :=
    create_pipeline_ok_elim pn pr dp modules ta ea ec mcc atr asv egba tba hfa r h
  subst hr
  cases egba <;> cases tba <;> exact ⟨rfl, rfl⟩

/-- C1 witness: the property evaluated on a concrete successful call. -/
theorem components_are_nine_in_order_witness :
    create_pipeline "segmentation-pipeline" "gs://bucket/root" "gs://bucket/data"
      sampleModules ⟨160⟩ ⟨4⟩ ⟨7⟩ none none none none none (some sampleHf) =
      .ok sampleResult ∧
    sampleResult.pipeline.components.map (fun n => Comp.kindName n.comp) =
      ["ImportExampleGen", "StatisticsGen", "SchemaGen", "Transform",
       "VertexTrainer", "Resolver", "Evaluator", "VertexPusher", "HFPusher"] :=
  ⟨rfl,
   (components_are_nine_in_order "segmentation-pipeline" "gs://bucket/root"
     "gs://bucket/data" sampleModules ⟨160⟩ ⟨4⟩ ⟨7⟩ none none none none none
     (some sampleHf) sampleResult rfl).1⟩

/-- C2: the beam engine arguments are applied only when supplied:
the ImportExampleGen node carries `example_gen_beam_args` exactly as given
(so `with_beam_pipeline_args` was called iff it is not None), the Transform
node carries `transform_beam_args` likewise, and every other component
carries no beam arguments. -/
theorem beam_args_applied_iff_supplied (pn pr dp : String) (modules : StrDict)
    (ta : TrainArgs) (ea : EvalArgs) (ec : EvalConfig)
    (mcc : Option ConnectionConfig) (atr asv : Option Dict)
    (egba tba : Option (List String)) (hfa : Option Dict) (r : CreateResult)
    (h : create_pipeline pn pr dp modules ta ea ec mcc atr asv egba tba hfa = .ok r) :
    r.pipeline.components.map Node.beam_args =
      [egba, none, none, tba, none, none, none, none, none] := by
  obtain ⟨pf, tf, hfd, _, _, _, hr⟩ :=
    create_pipeline_ok_elim pn pr dp modules ta ea ec mcc atr asv egba tba hfa r h
  subst hr
  cases egba <;> cases tba <;> rfl

/-- C2 witness: evaluated on a concrete call that supplies both beam
argument lists. -/
theorem beam_args_applied_iff_supplied_witness :
    create_pipeline "segmentation-pipeline" "gs://bucket/root" "gs://bucket/data"
      sampleModules ⟨160⟩ ⟨4⟩ ⟨7⟩ (some ⟨1⟩)
      (some [("project", .str "gcp-project")])
      (some [("machine_type", .str "n1-standard-4")])
      (some ["--runner=DataflowRunner"]) (some ["--direct_num_workers=4"])
      (some sampleHf) = .ok sampleResult2 ∧
    sampleResult2.pipeline.components.map Node.beam_args =
      [some ["--runner=DataflowRunner"], none, none,
       some ["--direct_num_workers=4"], none, none, none, none, none] :=
  ⟨rfl,
   beam_args_applied_iff_supplied "segmentation-pipeline" "gs://bucket/root"
     "gs://bucket/data" sampleModules ⟨160⟩ ⟨4⟩ ⟨7⟩ (some ⟨1⟩)
     (some [("project", .str "gcp-project")])
     (some [("machine_type", .str "n1-standard-4")])
     (some ["--runner=DataflowRunner"]) (some ["--direct_num_workers=4"])
     (some sampleHf) sampleResult2 rfl⟩

/-- C3: the cloud configuration arguments pass through exactly as supplied:
the VertexTrainer's custom_config is `ai_platform_training_args` and the
VertexPusher's custom_config is `ai_platform_serving_args`, so each is a
dictionary iff the argument was supplied and `none` when it was absent. -/
theorem cloud_configs_passed_through (pn pr dp : String) (modules : StrDict)
    (ta : TrainArgs) (ea : EvalArgs) (ec : EvalConfig)
    (mcc : Option ConnectionConfig) (atr asv : Option Dict)
    (egba tba : Option (List String)) (hfa : Option Dict) (r : CreateResult)
    (h : create_pipeline pn pr dp modules ta ea ec mcc atr asv egba tba hfa = .ok r) :
    (componentAt r.pipeline 4).bind Comp.trainerCustomConfig = some atr ∧
    (componentAt r.pipeline 7).bind Comp.pusherCustomConfig = some asv := by
  obtain ⟨pf, tf, hfd, _, _, _, hr⟩ :=
    create_pipeline_ok_elim pn pr dp modules ta ea ec mcc atr asv egba tba hfa r h
  subst hr
  cases egba <;> cases tba <;> exact ⟨rfl, rfl⟩

/-- C3 witness: evaluated on a concrete call that supplies both cloud
configuration dictionaries. -/
theorem cloud_configs_passed_through_witness :
    create_pipeline "segmentation-pipeline" "gs://bucket/root" "gs://bucket/data"
      sampleModules ⟨160⟩ ⟨4⟩ ⟨7⟩ (some ⟨1⟩)
      (some [("project", .str "gcp-project")])
      (some [("machine_type", .str "n1-standard-4")])
      (some ["--runner=DataflowRunner"]) (some ["--direct_num_workers=4"])
      (some sampleHf) = .ok sampleResult2 ∧
    (componentAt sampleResult2.pipeline 4).bind Comp.trainerCustomConfig =
      some (some [("project", .str "gcp-project")]) ∧
    (componentAt sampleResult2.pipeline 7).bind Comp.pusherCustomConfig =
      some (some [("machine_type", .str "n1-standard-4")]) :=
  ⟨rfl,
   (cloud_configs_passed_through "segmentation-pipeline" "gs://bucket/root"
     "gs://bucket/data" sampleModules ⟨160⟩ ⟨4⟩ ⟨7⟩ (some ⟨1⟩)
     (some [("project", .str "gcp-project")])
     (some [("machine_type", .str "n1-standard-4")])
     (some ["--runner=DataflowRunner"]) (some ["--direct_num_workers=4"])
     (some sampleHf) sampleResult2 rfl).1,
   (cloud_configs_passed_through "segmentation-pipeline" "gs://bucket/root"
     "gs://bucket/data" sampleModules ⟨160⟩ ⟨4⟩ ⟨7⟩ (some ⟨1⟩)
     (some [("project", .str "gcp-project")])
     (some [("machine_type", .str "n1-standard-4")])
     (some ["--runner=DataflowRunner"]) (some ["--direct_num_workers=4"])
     (some sampleHf) sampleResult2 rfl).2⟩

/-- C7: for every input on which `create_pipeline` returns, the returned
Pipeline has `enable_cache = true`, independent of all arguments. -/
theorem enable_cache_always_true (pn pr dp : String) (modules : StrDict)
    (ta : TrainArgs) (ea : EvalArgs) (ec : EvalConfig)
    (mcc : Option ConnectionConfig) (atr asv : Option Dict)
    (egba tba : Option (List String)) (hfa : Option Dict) (r : CreateResult)
    (h : create_pipeline pn pr dp modules ta ea ec mcc atr asv egba tba hfa = .ok r) :
    r.pipeline.enable_cache = true := by
  obtain ⟨pf, tf, hfd, _, _, _, hr⟩ :=
    create_pipeline_ok_elim pn pr dp modules ta ea ec mcc atr asv egba tba hfa r h
  subst hr
  cases egba <;> cases tba <;> rfl

/-- C7 witness: evaluated on a concrete successful call. -/
theorem enable_cache_always_true_witness :
    create_pipeline "segmentation-pipeline" "gs://bucket/root" "gs://bucket/data"
      sampleModules ⟨160⟩ ⟨4⟩ ⟨7⟩ none none none none none (some sampleHf) =
      .ok sampleResult ∧
    sampleResult.pipeline.enable_cache = true :=
  ⟨rfl,
   enable_cache_always_true "segmentation-pipeline" "gs://bucket/root"
     "gs://bucket/data" sampleModules ⟨160⟩ ⟨4⟩ ⟨7⟩ none none none none none
     (some sampleHf) sampleResult rfl⟩

/-- C10: on every successful call, the ImportExampleGen's input
configuration declares exactly the two splits "train" with pattern
"train-*.tfrec" and "eval" with pattern "val-*.tfrec", a fixed constant
independent of all arguments. -/
theorem input_config_is_fixed_constant (pn pr dp : String) (modules : StrDict)
    (ta : TrainArgs) (ea : EvalArgs) (ec : EvalConfig)
    (mcc : Option ConnectionConfig) (atr asv : Option Dict)
    (egba tba : Option (List String)) (hfa : Option Dict) (r : CreateResult)
    (h : create_pipeline pn pr dp modules ta ea ec mcc atr asv egba tba hfa = .ok r) :
    (componentAt r.pipeline 0).bind Comp.egInputConfig =
      some { splits := [ { name := "train", pattern := "train-*.tfrec" },
                         { name := "eval", pattern := "val-*.tfrec" } ] } := by
  obtain ⟨pf, tf, hfd, _, _, _, hr⟩ :=
    create_pipeline_ok_elim pn pr dp modules ta ea ec mcc atr asv egba tba hfa r h
  subst hr
  cases egba <;> cases tba <;> rfl

/-- C10 witness: evaluated on a concrete successful call. -/
theorem input_config_is_fixed_constant_witness :
    create_pipeline "segmentation-pipeline" "gs://bucket/root" "gs://bucket/data"
      sampleModules ⟨160⟩ ⟨4⟩ ⟨7⟩ none none none none none (some sampleHf) =
      .ok sampleResult ∧
    (componentAt sampleResult.pipeline 0).bind Comp.egInputConfig =
      some { splits := [ { name := "train", pattern := "train-*.tfrec" },
                         { name := "eval", pattern := "val-*.tfrec" } ] } :=
  ⟨rfl,
   input_config_is_fixed_constant "segmentation-pipeline" "gs://bucket/root"
     "gs://bucket/data" sampleModules ⟨160⟩ ⟨4⟩ ⟨7⟩ none none none none none
     (some sampleHf) sampleResult rfl⟩

/-- C5: both deployment components receive the trained model handle and the
blessing verdict: the VertexPusher's `model` and `model_blessing` are the
trainer's "model" output and the evaluator's "blessing" output, and the
HFPusher's keyword dictionary holds the same two channels under the keys
"model" and "model_blessing". -/
theorem pushers_receive_model_and_blessing (pn pr dp : String) (modules : StrDict)
    (ta : TrainArgs) (ea : EvalArgs) (ec : EvalConfig)
    (mcc : Option ConnectionConfig) (atr asv : Option Dict)
    (egba tba : Option (List String)) (hfa : Option Dict) (r : CreateResult)
    (h : create_pipeline pn pr dp modules ta ea ec mcc atr asv egba tba hfa = .ok r) :
    (componentAt r.pipeline 7).bind Comp.pusherModel =
      some (.output .trainer "model") ∧
    (componentAt r.pipeline 7).bind Comp.pusherModelBlessing =
      some (.output .evaluator "blessing") ∧
    ((componentAt r.pipeline 8).bind Comp.hfArgs).bind (fun d => dictGet d "model") =
      some (.chan (.output .trainer "model")) ∧
    ((componentAt r.pipeline 8).bind Comp.hfArgs).bind (fun d => dictGet d "model_blessing") =
      some (.chan (.output .evaluator "blessing")) := by
  obtain ⟨pf, tf, hfd, _, _, _, hr⟩ :=
    create_pipeline_ok_elim pn pr dp modules ta ea ec mcc atr asv egba tba hfa r h
  subst hr
  have hm : ∀ (d : Dict) (v1 v2 : PyVal),
      dictGet (dictSet (dictSet d "model" v1) "model_blessing" v2) "model" = some v1 := by
    intro d v1 v2
    rw [dictGet_dictSet_other _ _ _ _ (by decide), dictGet_dictSet_self]
  have hb : ∀ (d : Dict) (v1 v2 : PyVal),
      dictGet (dictSet (dictSet d "model" v1) "model_blessing" v2) "model_blessing" = some v2 := by
    intro d v1 v2
    rw [dictGet_dictSet_self]
  cases egba <;> cases tba <;> exact ⟨rfl, rfl, hm hfd _ _, hb hfd _ _⟩

/-- C5 witness: evaluated on a concrete successful call. -/
theorem pushers_receive_model_and_blessing_witness :
    create_pipeline "segmentation-pipeline" "gs://bucket/root" "gs://bucket/data"
      sampleModules ⟨160⟩ ⟨4⟩ ⟨7⟩ none none none none none (some sampleHf) =
      .ok sampleResult ∧
    (componentAt sampleResult.pipeline 7).bind Comp.pusherModel =
      some (.output .trainer "model") ∧
    ((componentAt sampleResult.pipeline 8).bind Comp.hfArgs).bind
      (fun d => dictGet d "model_blessing") =
      some (.chan (.output .evaluator "blessing")) :=
  ⟨rfl,
   (pushers_receive_model_and_blessing "segmentation-pipeline" "gs://bucket/root"
     "gs://bucket/data" sampleModules ⟨160⟩ ⟨4⟩ ⟨7⟩ none none none none none
     (some sampleHf) sampleResult rfl).1,
   (pushers_receive_model_and_blessing "segmentation-pipeline" "gs://bucket/root"
     "gs://bucket/data" sampleModules ⟨160⟩ ⟨4⟩ ⟨7⟩ none none none none none
     (some sampleHf) sampleResult rfl).2.2.2⟩

/-- C8: the Evaluator consumes the expected channels: its `examples` input
is the ImportExampleGen's "examples" output (the raw examples, not a
Transform output), its `model` is the trainer's "model" output, its
`baseline_model` is the resolver's "model" output, and its `eval_config`
is the `eval_configs` argument. -/
theorem evaluator_consumes_expected_channels (pn pr dp : String) (modules : StrDict)
    (ta : TrainArgs) (ea : EvalArgs) (ec : EvalConfig)
    (mcc : Option ConnectionConfig) (atr asv : Option Dict)
    (egba tba : Option (List String)) (hfa : Option Dict) (r : CreateResult)
    (h : create_pipeline pn pr dp modules ta ea ec mcc atr asv egba tba hfa = .ok r) :
    (componentAt r.pipeline 6).bind Comp.evaluatorExamples =
      some (.output .example_gen "examples") ∧
    (componentAt r.pipeline 6).bind Comp.evaluatorModel =
      some (.output .trainer "model") ∧
    (componentAt r.pipeline 6).bind Comp.evaluatorBaselineModel =
      some (.output .model_resolver "model") ∧
    (componentAt r.pipeline 6).bind Comp.evaluatorEvalConfig = some ec := by
  obtain ⟨pf, tf, hfd, _, _, _, hr⟩ :=
    create_pipeline_ok_elim pn pr dp modules ta ea ec mcc atr asv egba tba hfa r h
  subst hr
  cases egba <;> cases tba <;> exact ⟨rfl, rfl, rfl, rfl⟩

/-- C8 witness: evaluated on a concrete successful call. -/
theorem evaluator_consumes_expected_channels_witness :
    create_pipeline "segmentation-pipeline" "gs://bucket/root" "gs://bucket/data"
      sampleModules ⟨160⟩ ⟨4⟩ ⟨7⟩ none none none none none (some sampleHf) =
      .ok sampleResult ∧
    (componentAt sampleResult.pipeline 6).bind Comp.evaluatorExamples =
      some (.output .example_gen "examples") ∧
    (componentAt sampleResult.pipeline 6).bind Comp.evaluatorEvalConfig =
      some ⟨7⟩ :=
  ⟨rfl,
   (evaluator_consumes_expected_channels "segmentation-pipeline" "gs://bucket/root"
     "gs://bucket/data" sampleModules ⟨160⟩ ⟨4⟩ ⟨7⟩ none none none none none
     (some sampleHf) sampleResult rfl).1,
   (evaluator_consumes_expected_channels "segmentation-pipeline" "gs://bucket/root"
     "gs://bucket/data" sampleModules ⟨160⟩ ⟨4⟩ ⟨7⟩ none none none none none
     (some sampleHf) sampleResult rfl).2.2.2⟩

/-- C9: on a successful call the caller-supplied `hf_pusher_args`
dictionary ends up holding the trainer's model channel under "model" and
the evaluator's blessing channel under "model_blessing" (overwriting any
caller value under those keys), every other key of `hf_pusher_args` is
unchanged, and every other argument dictionary is unchanged. -/
theorem hf_pusher_args_mutated_in_place (pn pr dp : String) (modules : StrDict)
    (ta : TrainArgs) (ea : EvalArgs) (ec : EvalConfig)
    (mcc : Option ConnectionConfig) (atr asv : Option Dict)
    (egba tba : Option (List String)) (hfd : Dict) (r : CreateResult)
    (h : create_pipeline pn pr dp modules ta ea ec mcc atr asv egba tba (some hfd) = .ok r) :
    r.hf_pusher_args_after.isSome = true ∧
    r.hf_pusher_args_after.bind (fun d => dictGet d "model") =
      some (.chan (.output .trainer "model")) ∧
    r.hf_pusher_args_after.bind (fun d => dictGet d "model_blessing") =
      some (.chan (.output .evaluator "blessing")) ∧
    (∀ k, k ≠ "model" → k ≠ "model_blessing" →
      r.hf_pusher_args_after.bind (fun d => dictGet d k) = dictGet hfd k) ∧
    r.modules_after = modules ∧
    r.ai_platform_training_args_after = atr ∧
    r.ai_platform_serving_args_after = asv := by
  obtain ⟨pf, tf, hfd', _, _, hs, hr⟩ :=
    create_pipeline_ok_elim pn pr dp modules ta ea ec mcc atr asv egba tba (some hfd) r h
  injection hs with hs
  subst hs
  subst hr
  have hm : ∀ (d : Dict) (v1 v2 : PyVal),
      dictGet (dictSet (dictSet d "model" v1) "model_blessing" v2) "model" = some v1 := by
    intro d v1 v2
    rw [dictGet_dictSet_other _ _ _ _ (by decide), dictGet_dictSet_self]
  have hb : ∀ (d : Dict) (v1 v2 : PyVal),
      dictGet (dictSet (dictSet d "model" v1) "model_blessing" v2) "model_blessing" = some v2 := by
    intro d v1 v2
    rw [dictGet_dictSet_self]
  have ho : ∀ (d : Dict) (v1 v2 : PyVal) (k : String), k ≠ "model" → k ≠ "model_blessing" →
      dictGet (dictSet (dictSet d "model" v1) "model_blessing" v2) k = dictGet d k := by
    intro d v1 v2 k h1 h2
    rw [dictGet_dictSet_other _ _ _ _ h2, dictGet_dictSet_other _ _ _ _ h1]
  cases egba <;> cases tba <;>
    exact ⟨rfl, hm hfd _ _, hb hfd _ _,
      fun k h1 h2 => ho hfd _ _ k h1 h2, rfl, rfl, rfl⟩

/-- C9 witness: on a concrete call, the stale caller value under "model" is
overwritten with the trainer's model channel and the unrelated key
"username" is untouched. -/
theorem hf_pusher_args_mutated_in_place_witness :
    create_pipeline "segmentation-pipeline" "gs://bucket/root" "gs://bucket/data"
      sampleModules ⟨160⟩ ⟨4⟩ ⟨7⟩ none none none none none (some sampleHf) =
      .ok sampleResult ∧
    sampleResult.hf_pusher_args_after.bind (fun d => dictGet d "model") =
      some (.chan (.output .trainer "model")) ∧
    sampleResult.hf_pusher_args_after.bind (fun d => dictGet d "username") =
      some (.str "chansung") :=
  ⟨rfl,
   (hf_pusher_args_mutated_in_place "segmentation-pipeline" "gs://bucket/root"
     "gs://bucket/data" sampleModules ⟨160⟩ ⟨4⟩ ⟨7⟩ none none none none none
     sampleHf sampleResult rfl).2.1,
   ((hf_pusher_args_mutated_in_place "segmentation-pipeline" "gs://bucket/root"
     "gs://bucket/data" sampleModules ⟨160⟩ ⟨4⟩ ⟨7⟩ none none none none none
     sampleHf sampleResult rfl).2.2.2.1 "username" (by decide) (by decide)).trans rfl⟩

/-- C4: `create_pipeline` contains no handler: a missing
"preprocessing_fn" or "training_fn" entry in `modules` surfaces as exactly
the corresponding `KeyError`, an `hf_pusher_args` left at `None` surfaces
as exactly the `TypeError` of item assignment on `None`, and every error
the function can return is one of these underlying exceptions, unchanged. -/
theorem create_pipeline_propagates_errors (pn pr dp : String) (modules : StrDict)
    (ta : TrainArgs) (ea : EvalArgs) (ec : EvalConfig)
    (mcc : Option ConnectionConfig) (atr asv : Option Dict)
    (egba tba : Option (List String)) (hfa : Option Dict) :
    (strGet modules "preprocessing_fn" = none →
      create_pipeline pn pr dp modules ta ea ec mcc atr asv egba tba hfa =
        .error (.keyError "preprocessing_fn")) ∧
    (∀ pf, strGet modules "preprocessing_fn" = some pf →
      strGet modules "training_fn" = none →
      create_pipeline pn pr dp modules ta ea ec mcc atr asv egba tba hfa =
        .error (.keyError "training_fn")) ∧
    (∀ pf tf, strGet modules "preprocessing_fn" = some pf →
      strGet modules "training_fn" = some tf → hfa = none →
      create_pipeline pn pr dp modules ta ea ec mcc atr asv egba tba hfa =
        .error (.typeError hfNoneMsg)) ∧
    (∀ e, create_pipeline pn pr dp modules ta ea ec mcc atr asv egba tba hfa =
        .error e →
      e = .keyError "preprocessing_fn" ∨ e = .keyError "training_fn" ∨
      e = .typeError hfNoneMsg) := by
  refine ⟨?_, ?_, ?_, ?_⟩
  · intro hpf
    unfold create_pipeline
    rw [hpf]
  · intro pf hpf htf
    unfold create_pipeline
    rw [hpf, htf]
  · intro pf tf hpf htf hhf
    unfold create_pipeline
    rw [hpf, htf, hhf]
  · intro e he
    unfold create_pipeline at he
    cases hpf : strGet modules "preprocessing_fn" with
    | none =>
      rw [hpf] at he
      exact Or.inl (Except.error.inj he).symm
    | some pf =>
      rw [hpf] at he
      cases htf : strGet modules "training_fn" with
      | none =>
        rw [htf] at he
        exact Or.inr (Or.inl (Except.error.inj he).symm)
      | some tf =>
        rw [htf] at he
        cases hhf : hfa with
        | none =>
          rw [hhf] at he
          exact Or.inr (Or.inr (Except.error.inj he).symm)
        | some hfd =>
          rw [hhf] at he
          exact absurd he (by simp)

/-- C4 witness: the three failure modes evaluated at concrete inputs via
the theorem. -/
theorem create_pipeline_propagates_errors_witness :
    create_pipeline "p" "r" "d" [] ⟨1⟩ ⟨1⟩ ⟨1⟩ none none none none none none =
      .error (.keyError "preprocessing_fn") ∧
    create_pipeline "p" "r" "d" [("preprocessing_fn", "m.pp")] ⟨1⟩ ⟨1⟩ ⟨1⟩
      none none none none none none = .error (.keyError "training_fn") ∧
    create_pipeline "p" "r" "d" sampleModules ⟨1⟩ ⟨1⟩ ⟨1⟩
      none none none none none none = .error (.typeError hfNoneMsg) :=
  ⟨(create_pipeline_propagates_errors "p" "r" "d" [] ⟨1⟩ ⟨1⟩ ⟨1⟩
      none none none none none none).1 rfl,
   (create_pipeline_propagates_errors "p" "r" "d" [("preprocessing_fn", "m.pp")]
      ⟨1⟩ ⟨1⟩ ⟨1⟩ none none none none none none).2.1 "m.pp" rfl rfl,
   (create_pipeline_propagates_errors "p" "r" "d" sampleModules
      ⟨1⟩ ⟨1⟩ ⟨1⟩ none none none none none none).2.2.1
      "models.preprocessing.run_fn" "models.train.run_fn" rfl rfl rfl⟩

/-- C6 counterexample: in a concrete successful run, the Resolver's `model`
and `model_blessing` inputs are the freshly constructed channels
`Channel(type=Model)` and `Channel(type=ModelBlessing)`, and neither is a
channel produced by the Trainer stage — refuting the claim that they are
channels produced by the Trainer. -/
theorem resolver_inputs_not_from_trainer :
    (componentAt sampleResult.pipeline 5).bind Comp.resolverModel =
      some (Chan.ofType .Model) ∧
    (componentAt sampleResult.pipeline 5).bind Comp.resolverModelBlessing =
      some (Chan.ofType .ModelBlessing) ∧
    Chan.producedBy (Chan.ofType .Model) CompId.trainer = false ∧
    Chan.producedBy (Chan.ofType .ModelBlessing) CompId.trainer = false :=
  ⟨rfl, rfl, rfl, rfl⟩

/-- C6 (amended): every arrow of the stage chain except train →
resolve-baseline consumes a channel produced by the upstream component —
including both deployment arrows, evaluate → VertexPusher and evaluate →
HFPusher; the Resolver's `model` and `model_blessing` inputs are instead
freshly constructed channels of artifact types Model and ModelBlessing,
produced by no component, and the resolver feeds the evaluator through
its "model" output consumed as `baseline_model`. -/
theorem stage_chain_arrows (pn pr dp : String) (modules : StrDict)
    (ta : TrainArgs) (ea : EvalArgs) (ec : EvalConfig)
    (mcc : Option ConnectionConfig) (atr asv : Option Dict)
    (egba tba : Option (List String)) (hfa : Option Dict) (r : CreateResult)
    (h : create_pipeline pn pr dp modules ta ea ec mcc atr asv egba tba hfa = .ok r) :
    (componentAt r.pipeline 1).bind Comp.statsExamples =
      some (.output .example_gen "examples") ∧
    (componentAt r.pipeline 2).bind Comp.schemaStatistics =
      some (.output .statistics_gen "statistics") ∧
    (componentAt r.pipeline 3).bind Comp.transformExamples =
      some (.output .example_gen "examples") ∧
    (componentAt r.pipeline 3).bind Comp.transformSchema =
      some (.output .schema_gen "schema") ∧
    (componentAt r.pipeline 4).bind Comp.trainerTransformedExamples =
      some (.output .transform "transformed_examples") ∧
    (componentAt r.pipeline 4).bind Comp.trainerTransformGraph =
      some (.output .transform "transform_graph") ∧
    (componentAt r.pipeline 4).bind Comp.trainerSchema =
      some (.output .schema_gen "schema") ∧
    (componentAt r.pipeline 5).bind Comp.resolverModel =
      some (.ofType .Model) ∧
    (componentAt r.pipeline 5).bind Comp.resolverModelBlessing =
      some (.ofType .ModelBlessing) ∧
    (componentAt r.pipeline 6).bind Comp.evaluatorBaselineModel =
      some (.output .model_resolver "model") ∧
    (componentAt r.pipeline 7).bind Comp.pusherModelBlessing =
      some (.output .evaluator "blessing") ∧
    ((componentAt r.pipeline 8).bind Comp.hfArgs).bind
      (fun d => dictGet d "model_blessing") =
      some (.chan (.output .evaluator "blessing")) := by
  obtain ⟨pf, tf, hfd, _, _, _, hr⟩ :=
    create_pipeline_ok_elim pn pr dp modules ta ea ec mcc atr asv egba tba hfa r h
  subst hr
  have hb : ∀ (d : Dict) (v1 v2 : PyVal),
      dictGet (dictSet (dictSet d "model" v1) "model_blessing" v2) "model_blessing" = some v2 := by
    intro d v1 v2
    rw [dictGet_dictSet_self]
  cases egba <;> cases tba <;>
    exact ⟨rfl, rfl, rfl, rfl, rfl, rfl, rfl, rfl, rfl, rfl, rfl, hb hfd _ _⟩

/-- C6 (amended) witness: evaluated on a concrete successful call. -/
theorem stage_chain_arrows_witness :
    create_pipeline "segmentation-pipeline" "gs://bucket/root" "gs://bucket/data"
      sampleModules ⟨160⟩ ⟨4⟩ ⟨7⟩ none none none none none (some sampleHf) =
      .ok sampleResult ∧
    (componentAt sampleResult.pipeline 1).bind Comp.statsExamples =
      some (.output .example_gen "examples") ∧
    (componentAt sampleResult.pipeline 5).bind Comp.resolverModel =
      some (.ofType .Model) :=
  ⟨rfl,
   (stage_chain_arrows "segmentation-pipeline" "gs://bucket/root"
     "gs://bucket/data" sampleModules ⟨160⟩ ⟨4⟩ ⟨7⟩ none none none none none
     (some sampleHf) sampleResult rfl).1,
   (stage_chain_arrows "segmentation-pipeline" "gs://bucket/root"
     "gs://bucket/data" sampleModules ⟨160⟩ ⟨4⟩ ⟨7⟩ none none none none none
     (some sampleHf) sampleResult rfl).2.2.2.2.2.2.2.1⟩

end SemSegPipeline
